import Mathlib

/-!
Shallow embedding of the credential-reconciliation core of the MySQL Router
charm (`src/relations/database_provides.py` and
`src/relations/database_requires.py`), together with theorems checking the
natural-language specification against it.

Relation databags are modelled as association lists with Python-`dict`
semantics (insertion order, in-place update of an existing key).  Relations of
the host framework (`charm.RemoteRelation`) are modelled as records carrying
the relation id, the remote application name, the `breaking` flag and the two
databags.  Python exceptions used for control flow become `Except`/sum
results; an uncaught `AssertionError`/`IndexError` becomes an explicit crash
outcome.
-/

/-- A relation databag: Python `dict[str, str]` as an insertion-ordered
association list. -/
abbrev Bag := List (String × String)

/-- Python `bag[key]` / `bag.get(key)`: the value of the first (unique)
entry for `key`. -/
def bagGet : Bag → String → Option String
  | [], _ => none
  | (k', v) :: rest, k => if k' = k then some v else bagGet rest k

/-- Python `key in bag`. -/
def bagHas (b : Bag) (k : String) : Bool :=
  (bagGet b k).isSome

/-- Python `bag[key] = value`: update the existing entry in place, else
append. -/
def bagSet : Bag → String → String → Bag
  | [], k, v => [(k, v)]
  | (k', v') :: rest, k, v =>
    if k' = k then (k, v) :: rest else (k', v') :: bagSet rest k v

theorem bagGet_bagSet (b : Bag) (k v k' : String) :
    bagGet (bagSet b k v) k' = if k = k' then some v else bagGet b k' := by
  induction b with
  | nil =>
    by_cases hkk : k = k' <;> simp [bagSet, bagGet, hkk]
  | cons p rest ih =>
    obtain ⟨pk, pv⟩ := p
    by_cases hpk : pk = k
    · subst hpk
      by_cases hkk : pk = k' <;> simp [bagSet, bagGet, hkk]
    · by_cases hkk' : pk = k'
      · subst hkk'
        have hkk : ¬(k = pk) := fun hc => hpk hc.symm
        simp [bagSet, bagGet, hpk, hkk, ih]
      · simp [bagSet, bagGet, hpk, hkk', ih]

theorem bagSet_eq_of_bagGet (b : Bag) (k v : String) (h : bagGet b k = some v) :
    bagSet b k v = b := by
  induction b with
  | nil => simp [bagGet] at h
  | cons p rest ih =>
    obtain ⟨pk, pv⟩ := p
    by_cases hpk : pk = k
    · subst hpk
      simp [bagGet] at h
      simp [bagSet, h]
    · simp [bagGet, hpk] at h
      simp [bagSet, hpk, ih h]

/-- Decimal digits of a natural number, least significant first; Python
`str(int)` renders relation ids in decimal. -/
def decDigitsRev (n : Nat) : List Char :=
  if h : n < 10 then [Nat.digitChar n]
  else Nat.digitChar (n % 10) :: decDigitsRev (n / 10)
  decreasing_by exact Nat.div_lt_self (by omega) (by omega)

/-- Decimal rendering of a natural number (the model of Python `str(int)` /
f-string interpolation of a relation id). -/
def natToDec (n : Nat) : String :=
  String.mk (decDigitsRev n).reverse

/-- Numeric value of a decimal digit character. -/
def decDigitVal (c : Char) : Nat := c.toNat - 48

/-- Value of a least-significant-first digit list. -/
def decValRev : List Char → Nat
  | [] => 0
  | c :: cs => decDigitVal c + 10 * decValRev cs

theorem decDigitVal_digitChar (d : Nat) (h : d < 10) :
    decDigitVal (Nat.digitChar d) = d := by
  interval_cases d <;> rfl

theorem decValRev_decDigitsRev (n : Nat) : decValRev (decDigitsRev n) = n := by
  induction n using Nat.strong_induction_on with
  | _ n ih =>
    unfold decDigitsRev
    split
    · next h =>
      simp [decValRev, decDigitVal_digitChar n h]
    · next h =>
      have hn : 10 ≤ n := by omega
      have hdiv : n / 10 < n := Nat.div_lt_self (by omega) (by omega)
      rw [decValRev, ih (n / 10) hdiv, decDigitVal_digitChar (n % 10) (Nat.mod_lt n (by omega))]
      omega

theorem decDigitsRev_injective : Function.Injective decDigitsRev := by
  intro m n h
  have hm := decValRev_decDigitsRev m
  have hn := decValRev_decDigitsRev n
  rw [h] at hm
  omega

theorem natToDec_injective : Function.Injective natToDec := by
  intro m n h
  have hdata : (decDigitsRev m).reverse = (decDigitsRev n).reverse :=
    congrArg String.data h
  exact decDigitsRev_injective (List.reverse_injective hdata)

/-- Modelled from the spec: the host framework's structured status values
(`charm.BlockedStatus`, `charm.WaitingStatus`, ... are provided by the
external `charm` framework module, not by the reconciliation sources).  The
spec's status surface is `Active`, `Waiting(reason)`, `Blocked(reason)`,
`Maintenance(reason)`, each carrying a human-readable string. -/
inductive Status where
  | active : Status
  | maintenance (message : String) : Status
  | waiting (message : String) : Status
  | blocked (message : String) : Status
  deriving DecidableEq, Repr

/-- Dynamic type of the Python value `exception.args[0]` as returned by
`get_status`: either a structured status object or a plain Python string. -/
inductive PyValue where
  | status (s : Status) : PyValue
  | rawString (s : String) : PyValue
  deriving DecidableEq, Repr

/-- Whether an optionally reported status is a Waiting status. -/
def isWaitingStatus : Option Status → Bool
  | some (.waiting _) => true
  | _ => false

/-- A relation of the host framework (`charm.RemoteRelation`): relation id,
remote application name, whether the relation is breaking for this unit, the
remote application's databag and this application's own databag. -/
structure RemoteRelation where
  id : Nat
  remoteAppName : String
  breaking : Bool
  remoteApp : Bag
  myApp : Bag
  deriving DecidableEq, Repr

/-- Modelled from the spec: `mysql_shell.Shell` (the AdminShell collaborator,
outside the relation sources).  Only the admin username and the generated
password (abstracted as a function of username and database) are relevant to
the reconciliation code. -/
structure Shell where
  username : String
  genPassword : String → String → String

/-- A backend call issued through `mysql_shell.Shell` during reconciliation. -/
inductive ShellCall where
  | createApplicationDatabaseAndUser (username database : String) : ShellCall
  | deleteUser (username : String) : ShellCall
  deriving DecidableEq, Repr

/-- Python truthiness of `bag.get(key)`: `None` and the empty string are
falsy. -/
def pyTruthy : Option String → Bool
  | none => false
  | some s => !(s == "")

namespace DatabaseProvides

/-- The `_ENDPOINT_NAME` constant of `database_provides.py`. -/
def endpointName : String := "database"

/-- The derived database username of `_Relation._get_username`:
`f"{database_requires_username}-{self.id}"`. -/
def getUsername (databaseRequiresUsername : String) (relId : Nat) : String :=
  databaseRequiresUsername ++ "-" ++ natToDec relId

/-- Exceptions raised by `_RelationThatRequestedUser.__init__`:
`_RelationBreaking`, `_IncompleteDatabag` (whose `args[0]` is a
`WaitingStatus`) and `_UnsupportedExtraUserRole` (whose `args[0]` is a plain
message string). -/
inductive RequestPathError where
  | relationBreaking : RequestPathError
  | incompleteDatabag (arg : Status) : RequestPathError
  | unsupportedExtraUserRole (arg : String) : RequestPathError
  deriving DecidableEq, Repr

/-- The constructor `_RelationThatRequestedUser.__init__`: checks `breaking`,
reads `remote_app["database"]` (raising `_IncompleteDatabag` with a
`WaitingStatus` on `KeyError`), then rejects a truthy
`remote_app.get("extra-user-roles")`.  On success returns the requested
database name stored in `self._database`. -/
def relationThatRequestedUser (r : RemoteRelation) : Except RequestPathError String :=
  if r.breaking then .error .relationBreaking
  else
    match bagGet r.remoteApp "database" with
    | none =>
      .error (.incompleteDatabag (.waiting
        ("Waiting for " ++ r.remoteAppName ++ " app on " ++ endpointName ++ " endpoint")))
    | some database =>
      if pyTruthy (bagGet r.remoteApp "extra-user-roles") then
        .error (.unsupportedExtraUserRole
          (r.remoteAppName ++ " app requested unsupported extra user role on "
            ++ endpointName ++ " endpoint"))
      else .ok database

/-- Whether `relationThatRequestedUser` succeeds, i.e. the relation belongs
to `requested_users` in `reconcile_users`. -/
def isRequestedUser (r : RemoteRelation) : Bool :=
  (relationThatRequestedUser r).toOption.isSome

/-- The five keys checked by `_RelationWithCreatedUser.__init__`. -/
def createdUserKeys : List String :=
  ["database", "username", "password", "endpoints", "read-only-endpoints"]

/-- The check of `_RelationWithCreatedUser.__init__`: the local databag
holds a complete grant (all five keys present), i.e. the relation belongs to
`_created_users()`. -/
def hasCreatedUser (r : RemoteRelation) : Bool :=
  createdUserKeys.all (fun k => bagHas r.myApp k)

/-- `_RelationThatRequestedUser.create_database_and_user`: derive the
username, create the backend database & user (the generated password is the
shell's), and write the five grant fields into the local databag. -/
def create_database_and_user (shell : Shell) (routerReadWriteEndpoint routerReadOnlyEndpoint : String)
    (r : RemoteRelation) (database : String) : RemoteRelation × ShellCall :=
  let username := getUsername shell.username r.id
  let password := shell.genPassword username database
  let bag1 := bagSet r.myApp "database" database
  let bag2 := bagSet bag1 "username" username
  let bag3 := bagSet bag2 "password" password
  let bag4 := bagSet bag3 "endpoints" routerReadWriteEndpoint
  let bag5 := bagSet bag4 "read-only-endpoints" routerReadOnlyEndpoint
  ({ r with myApp := bag5 }, .createApplicationDatabaseAndUser username database)

/-- `_RelationWithCreatedUser.delete_databag`: `my_app.clear()`. -/
def delete_databag (r : RemoteRelation) : RemoteRelation :=
  { r with myApp := [] }

/-- `_RelationWithCreatedUser.delete_user`: clear the local databag first,
then delete the backend user. -/
def delete_user (shell : Shell) (r : RemoteRelation) : RemoteRelation × ShellCall :=
  (delete_databag r, .deleteUser (getUsername shell.username r.id))

/-- One iteration of the first loop of `reconcile_users`: a relation in
`requested_users` that is not in `_created_users()` gets a database & user
created.  Relation membership (Python `in`) is keyed by relation identity. -/
def reconcileCreate (shell : Shell) (rw ro : String) (r : RemoteRelation) :
    RemoteRelation × List ShellCall :=
  match relationThatRequestedUser r with
  | .ok database =>
    if hasCreatedUser r then (r, [])
    else
      let res := create_database_and_user shell rw ro r database
      (res.1, [res.2])
  | .error _ => (r, [])

/-- One iteration of the second loop of `reconcile_users`: a relation in
`_created_users()` that is not in `requested_users` has its databag cleared
and its backend user deleted. -/
def reconcileDelete (shell : Shell) (r : RemoteRelation) :
    RemoteRelation × List ShellCall :=
  if hasCreatedUser r && !(isRequestedUser r) then
    let res := delete_user shell r
    (res.1, [res.2])
  else (r, [])

/-- Concatenation of the backend calls issued by a list of per-relation
steps. -/
def collectCalls (l : List (RemoteRelation × List ShellCall)) : List ShellCall :=
  l.foldr (fun p acc => p.2 ++ acc) []

/-- `reconcile_users`: create requested users and delete inactive users,
returning the updated relations and the backend calls issued, in order. -/
def reconcile_users (shell : Shell) (rw ro : String) (rels : List RemoteRelation) :
    List RemoteRelation × List ShellCall :=
  let createResults := rels.map (reconcileCreate shell rw ro)
  let relsAfterCreate := createResults.map Prod.fst
  let deleteResults := relsAfterCreate.map (reconcileDelete shell)
  (deleteResults.map Prod.fst, collectCalls createResults ++ collectCalls deleteResults)

/-- `delete_all_databags`: clear the databag of every relation with a created
user; no backend calls are made (the MySQL charm deletes the users). -/
def delete_all_databags (rels : List RemoteRelation) :
    List RemoteRelation × List ShellCall :=
  (rels.map (fun r => if hasCreatedUser r then delete_databag r else r), [])

/-- `get_status`: scan all relations, collect the first exception per
relation (ignoring `_RelationBreaking`), and report `exception.args[0]` of
the highest-priority exception class (`_UnsupportedExtraUserRole` before
`_IncompleteDatabag`); otherwise report a missing-relation blocked status if
no relation requested a user. -/
def get_status (rels : List RemoteRelation) : Option PyValue :=
  let results := rels.map relationThatRequestedUser
  let exceptions := results.filterMap (fun res =>
    match res with
    | .error .relationBreaking => none
    | .error e => some e
    | .ok _ => none)
  match exceptions.findSome? (fun e =>
      match e with
      | .unsupportedExtraUserRole m => some m
      | _ => none) with
  | some m => some (.rawString m)
  | none =>
    match exceptions.findSome? (fun e =>
        match e with
        | .incompleteDatabag st => some st
        | _ => none) with
    | some st => some (.status st)
    | none =>
      if (results.filterMap Except.toOption).isEmpty then
        some (.status (.blocked ("Missing relation: " ++ endpointName)))
      else none

end DatabaseProvides

/-- Python `s.split(sep)` for a single-character separator, on the character
list: splits at every occurrence, keeping empty pieces; the result is never
empty (`"".split(sep) == [""]`). -/
def splitOnChar (sep : Char) : List Char → List (List Char)
  | [] => [[]]
  | c :: cs =>
    let rest := splitOnChar sep cs
    if c = sep then [] :: rest
    else
      match rest with
      | [] => [[c]]
      | piece :: pieces => (c :: piece) :: pieces

/-- Python `s.split(sep)` for a single-character separator, on strings. -/
def pySplit (s : String) (sep : Char) : List String :=
  (splitOnChar sep s.data).map String.mk

namespace DatabaseRequires

/-- The `_ENDPOINT_NAME` constant of `database_requires.py`. -/
def endpointName : String := "backend-database"

/-- The `WaitingStatus` argument of `_IncompleteDatabag` in
`ConnectionInformation.__init__`. -/
def waitingMessage (remoteAppName : String) : String :=
  "Waiting for " ++ remoteAppName ++ " app on " ++ endpointName ++ " endpoint"

/-- The two bag entries written (leader only) by
`ConnectionInformation.__init__` into this unit's local databag on the
backend-database relation. -/
def leaderRequestWrite (b : Bag) : Bag :=
  bagSet (bagSet b "database" "mysql_innodb_cluster_metadata")
    "extra-user-roles" "mysqlrouter"

/-- Outcome of `ConnectionInformation.__init__`: success carries host, port,
username and password; `_MissingRelation` and `_RelationBreaking` are the
structured failures; `_IncompleteDatabag` carries its `WaitingStatus`
argument; an `AssertionError` (more than one relation, or an `endpoints`
value that does not split into exactly one endpoint) and an `IndexError`
(endpoint without a `:` separator) escape uncaught. -/
inductive UpstreamOutcome where
  | success (host port username password : String) : UpstreamOutcome
  | missingRelation : UpstreamOutcome
  | relationBreaking : UpstreamOutcome
  | incompleteDatabag (arg : Status) : UpstreamOutcome
  | assertionError : UpstreamOutcome
  | indexError : UpstreamOutcome
  deriving DecidableEq, Repr

/-- Tail of the `try` block of `ConnectionInformation.__init__`: after host
and port are extracted, read `remote_app["username"]` and
`remote_app["password"]`; a `KeyError` becomes `_IncompleteDatabag` with a
`WaitingStatus`. -/
def parseUserPass (remoteAppName : String) (remoteApp : Bag) (host port : String) :
    UpstreamOutcome :=
  match bagGet remoteApp "username" with
  | none => .incompleteDatabag (.waiting (waitingMessage remoteAppName))
  | some username =>
    match bagGet remoteApp "password" with
    | none => .incompleteDatabag (.waiting (waitingMessage remoteAppName))
    | some password => .success host port username password

/-- `self.host = endpoint.split(":")[0]` and
`self.port = endpoint.split(":")[1]`: an endpoint without a `:` separator
raises an uncaught `IndexError`. -/
def parseEndpoint (remoteAppName : String) (remoteApp : Bag) (endpoint : String) :
    UpstreamOutcome :=
  match pySplit endpoint ':' with
  | host :: port :: _ => parseUserPass remoteAppName remoteApp host port
  | _ => .indexError

/-- `endpoints = relation.remote_app["endpoints"].split(",")` followed by
`assert len(endpoints) == 1`: any other piece count raises an uncaught
`AssertionError`. -/
def parseEndpointsValue (remoteAppName : String) (remoteApp : Bag)
    (endpointsValue : String) : UpstreamOutcome :=
  match pySplit endpointsValue ',' with
  | [endpoint] => parseEndpoint remoteAppName remoteApp endpoint
  | _ => .assertionError

/-- The `try` block of `ConnectionInformation.__init__`: a missing
`endpoints` key becomes `_IncompleteDatabag` with a `WaitingStatus`,
otherwise its value is parsed. -/
def connectionInfoFromRemote (remoteAppName : String) (remoteApp : Bag) : UpstreamOutcome :=
  match bagGet remoteApp "endpoints" with
  | none => .incompleteDatabag (.waiting (waitingMessage remoteAppName))
  | some endpointsValue => parseEndpointsValue remoteAppName remoteApp endpointsValue

/-- `ConnectionInformation.__init__`: zero relations raise `_MissingRelation`;
more than one is an assertion failure; with exactly one relation the leader
first writes its database-name request and role marker into the local databag,
then the `breaking` flag raises `_RelationBreaking`, and otherwise the remote
databag is parsed.  Returns the outcome and the (possibly written-to)
relation list. -/
def connectionInformationInit (isLeader : Bool) (rels : List RemoteRelation) :
    UpstreamOutcome × List RemoteRelation :=
  match rels with
  | [] => (.missingRelation, [])
  | [relation] =>
    let relation :=
      if isLeader then { relation with myApp := leaderRequestWrite relation.myApp }
      else relation
    ( if relation.breaking then .relationBreaking
      else connectionInfoFromRemote relation.remoteAppName relation.remoteApp,
      [relation])
  | _ => (.assertionError, rels)

/-- Upstream connection credentials (`ConnectionInformation` on success). -/
structure ConnectionInformation where
  host : String
  port : String
  username : String
  password : String
  deriving DecidableEq, Repr

/-- An exception escaping the module-level `try` (only `_MissingRelation` and
`_IncompleteDatabag` are caught). -/
inductive CrashKind where
  | assertionError : CrashKind
  | indexError : CrashKind
  deriving DecidableEq, Repr

/-- The module-level state of `database_requires.py` after import:
`connection_info`, `relation_breaking` and `status`. -/
structure RequiresState where
  connection_info : Option ConnectionInformation
  relation_breaking : Bool
  status : Option Status
  deriving DecidableEq, Repr

/-- The module level of `database_requires.py`: run
`ConnectionInformation()`, catching `_MissingRelation` (whose `args[0]` is
`BlockedStatus("Missing relation: backend-database")`, also inherited by
`_RelationBreaking`) and `_IncompleteDatabag`; `relation_breaking` is set
only for `_RelationBreaking`; assertion and index errors escape. -/
def requiresModule (isLeader : Bool) (rels : List RemoteRelation) :
    Except CrashKind RequiresState × List RemoteRelation :=
  let res := connectionInformationInit isLeader rels
  ( match res.1 with
    | .success h p u pw =>
      .ok { connection_info := some ⟨h, p, u, pw⟩, relation_breaking := false, status := none }
    | .missingRelation =>
      .ok { connection_info := none, relation_breaking := false,
            status := some (.blocked ("Missing relation: " ++ endpointName)) }
    | .relationBreaking =>
      .ok { connection_info := none, relation_breaking := true,
            status := some (.blocked ("Missing relation: " ++ endpointName)) }
    | .incompleteDatabag arg =>
      .ok { connection_info := none, relation_breaking := false, status := some arg }
    | .assertionError => .error .assertionError
    | .indexError => .error .indexError,
    res.2)

/-- The status reported by the module, if it did not crash. -/
def reportedStatus : Except CrashKind RequiresState → Option Status
  | .ok s => s.status
  | .error _ => none

end DatabaseRequires

namespace DatabaseProvides

theorem relationThatRequestedUser_myApp (r : RemoteRelation) (b : Bag) :
    relationThatRequestedUser { r with myApp := b } = relationThatRequestedUser r := rfl

theorem isRequestedUser_myApp (r : RemoteRelation) (b : Bag) :
    isRequestedUser { r with myApp := b } = isRequestedUser r := rfl

theorem hasCreatedUser_create (shell : Shell) (rw ro : String) (r : RemoteRelation)
    (database : String) :
    hasCreatedUser (create_database_and_user shell rw ro r database).1 = true := by
  simp [hasCreatedUser, createdUserKeys, bagHas, create_database_and_user, bagGet_bagSet]

theorem hasCreatedUser_empty (r : RemoteRelation) :
    hasCreatedUser { r with myApp := [] } = false := by
  simp [hasCreatedUser, createdUserKeys, bagHas, bagGet]

theorem isRequestedUser_eq_true (r : RemoteRelation) (database : String)
    (h : relationThatRequestedUser r = .ok database) : isRequestedUser r = true := by
  simp [isRequestedUser, h, Except.toOption]

theorem isRequestedUser_eq_false (r : RemoteRelation) (e : RequestPathError)
    (h : relationThatRequestedUser r = .error e) : isRequestedUser r = false := by
  simp [isRequestedUser, h, Except.toOption]

theorem reconcileDelete_of_kept (shell : Shell) (r : RemoteRelation)
    (h : ¬(hasCreatedUser r = true ∧ isRequestedUser r = false)) :
    reconcileDelete shell r = (r, []) := by
  unfold reconcileDelete
  cases hcr : hasCreatedUser r with
  | false => simp
  | true =>
    cases hi : isRequestedUser r with
    | false => exact absurd ⟨hcr, hi⟩ h
    | true => simp [hi]

theorem reconcileOne_spec (shell : Shell) (rw ro : String) (r : RemoteRelation) :
    ((reconcileDelete shell (reconcileCreate shell rw ro r).1).1).id = r.id ∧
    ((reconcileDelete shell (reconcileCreate shell rw ro r).1).1).breaking = r.breaking ∧
    ((reconcileDelete shell (reconcileCreate shell rw ro r).1).1).remoteApp = r.remoteApp ∧
    ((reconcileDelete shell (reconcileCreate shell rw ro r).1).1).remoteAppName = r.remoteAppName ∧
    hasCreatedUser ((reconcileDelete shell (reconcileCreate shell rw ro r).1).1)
      = isRequestedUser r := by
  cases hreq : relationThatRequestedUser r with
  | ok database =>
    have hr : isRequestedUser r = true := isRequestedUser_eq_true r database hreq
    cases hcr : hasCreatedUser r with
    | true =>
      have hstep : (reconcileCreate shell rw ro r).1 = r := by
        simp [reconcileCreate, hreq, hcr]
      rw [hstep, reconcileDelete_of_kept shell r (by simp [hr])]
      exact ⟨rfl, rfl, rfl, rfl, by rw [hcr, hr]⟩
    | false =>
      have hstep : (reconcileCreate shell rw ro r).1
          = (create_database_and_user shell rw ro r database).1 := by
        simp [reconcileCreate, hreq, hcr]
      have hc1 : hasCreatedUser (create_database_and_user shell rw ro r database).1 = true :=
        hasCreatedUser_create shell rw ro r database
      have hi1 : isRequestedUser (create_database_and_user shell rw ro r database).1
          = isRequestedUser r := by
        simp [create_database_and_user, isRequestedUser_myApp]
      rw [hstep, reconcileDelete_of_kept shell _ (by simp [hi1, hr])]
      refine ⟨rfl, rfl, rfl, rfl, ?_⟩
      rw [hc1, hr]
  | error e =>
    have hr : isRequestedUser r = false := isRequestedUser_eq_false r e hreq
    have hstep : (reconcileCreate shell rw ro r).1 = r := by
      simp [reconcileCreate, hreq]
    rw [hstep]
    cases hcr : hasCreatedUser r with
    | true =>
      have hdel : reconcileDelete shell r = ((delete_user shell r).1, [(delete_user shell r).2]) := by
        simp [reconcileDelete, hcr, hr]
      rw [hdel]
      exact ⟨rfl, rfl, rfl, rfl, by simp [delete_user, delete_databag, hasCreatedUser_empty, hr]⟩
    | false =>
      rw [reconcileDelete_of_kept shell r (by simp [hcr])]
      exact ⟨rfl, rfl, rfl, rfl, by rw [hcr, hr]⟩

theorem reconcile_users_fst (shell : Shell) (rw ro : String) (rels : List RemoteRelation) :
    (reconcile_users shell rw ro rels).1
      = rels.map (fun r => (reconcileDelete shell (reconcileCreate shell rw ro r).1).1) := by
  simp [reconcile_users, List.map_map]

/-- C1: for every set of downstream relationships, after `reconcile_users`
completes, the set of relation ids whose local databag holds a complete grant
(all of database, username, password, endpoints, read-only-endpoints present)
equals exactly the set of relation ids of relationships that are not tearing
down, have the required `database` key in the remote databag, and do not
request an extra user role. -/
theorem reconcile_users_fixpoint (shell : Shell) (rw ro : String)
    (rels : List RemoteRelation) :
    (reconcile_users shell rw ro rels).1.map (fun r => (r.id, hasCreatedUser r))
      = rels.map (fun r => (r.id, isRequestedUser r)) := by
  rw [reconcile_users_fst, List.map_map]
  apply List.map_congr_left
  intro r _
  obtain ⟨hid, _, _, _, hcreated⟩ := reconcileOne_spec shell rw ro r
  simp [Function.comp, hid, hcreated]

theorem reconcileCreate_fixed (shell : Shell) (rw ro : String) (r : RemoteRelation)
    (h : hasCreatedUser r = isRequestedUser r) :
    reconcileCreate shell rw ro r = (r, []) := by
  cases hreq : relationThatRequestedUser r with
  | ok database =>
    have hr := isRequestedUser_eq_true r database hreq
    simp [reconcileCreate, hreq, h, hr]
  | error e =>
    simp [reconcileCreate, hreq]

theorem reconcileDelete_fixed (shell : Shell) (r : RemoteRelation)
    (h : hasCreatedUser r = isRequestedUser r) :
    reconcileDelete shell r = (r, []) := by
  cases hr : isRequestedUser r with
  | true => simp [reconcileDelete, h, hr]
  | false => simp [reconcileDelete, h, hr]

theorem collectCalls_of_fixed (l : List RemoteRelation)
    (f : RemoteRelation → RemoteRelation × List ShellCall)
    (h : ∀ r ∈ l, f r = (r, [])) : collectCalls (l.map f) = [] := by
  induction l with
  | nil => rfl
  | cons a l ih =>
    have ha := h a (by simp)
    have hl : ∀ r ∈ l, f r = (r, []) := fun r hr => h r (by simp [hr])
    simp [collectCalls, List.foldr, ha] at ih ⊢
    exact ih hl

theorem map_fst_of_fixed (l : List RemoteRelation)
    (f : RemoteRelation → RemoteRelation × List ShellCall)
    (h : ∀ r ∈ l, f r = (r, [])) : (l.map f).map Prod.fst = l := by
  induction l with
  | nil => rfl
  | cons a l ih =>
    have ha := h a (by simp)
    have hl : ∀ r ∈ l, f r = (r, []) := fun r hr => h r (by simp [hr])
    simp [ha, ih hl]

theorem reconcile_users_of_fixed (shell : Shell) (rw ro : String)
    (rels : List RemoteRelation)
    (h : ∀ r ∈ rels, hasCreatedUser r = isRequestedUser r) :
    reconcile_users shell rw ro rels = (rels, []) := by
  have hc : ∀ r ∈ rels, reconcileCreate shell rw ro r = (r, []) :=
    fun r hr => reconcileCreate_fixed shell rw ro r (h r hr)
  have hd : ∀ r ∈ rels, reconcileDelete shell r = (r, []) :=
    fun r hr => reconcileDelete_fixed shell r (h r hr)
  have hmap : (rels.map (reconcileCreate shell rw ro)).map Prod.fst = rels :=
    map_fst_of_fixed rels _ hc
  simp only [reconcile_users, hmap]
  rw [collectCalls_of_fixed rels _ hc, collectCalls_of_fixed rels _ hd,
    map_fst_of_fixed rels _ hd]
  simp

theorem isRequestedUser_congr (r r' : RemoteRelation)
    (hbr : r'.breaking = r.breaking) (hrem : r'.remoteApp = r.remoteApp) :
    isRequestedUser r' = isRequestedUser r := by
  unfold isRequestedUser relationThatRequestedUser
  rw [hbr, hrem]
  cases r.breaking
  · cases bagGet r.remoteApp "database" <;>
      cases pyTruthy (bagGet r.remoteApp "extra-user-roles") <;> simp [Except.toOption]
  · simp

theorem reconcile_users_reaches_fixed (shell : Shell) (rw ro : String)
    (rels : List RemoteRelation) :
    ∀ r ∈ (reconcile_users shell rw ro rels).1, hasCreatedUser r = isRequestedUser r := by
  rw [reconcile_users_fst]
  intro r hr
  rw [List.mem_map] at hr
  obtain ⟨r0, _, hr0⟩ := hr
  obtain ⟨_, hbr, hrem, _, hcreated⟩ := reconcileOne_spec shell rw ro r0
  subst hr0
  rw [hcreated, isRequestedUser_congr r0 _ hbr hrem]

/-- C2: for any fixed set of downstream relationships, running
`reconcile_users` twice in succession with unchanged relationship state
yields identical local databag contents after both calls, and the second
call issues zero backend calls (no create, no delete). -/
theorem reconcile_users_idempotent (shell : Shell) (rw ro : String)
    (rels : List RemoteRelation) :
    reconcile_users shell rw ro (reconcile_users shell rw ro rels).1
      = ((reconcile_users shell rw ro rels).1, []) :=
  reconcile_users_of_fixed shell rw ro _
    (reconcile_users_reaches_fixed shell rw ro rels)

end DatabaseProvides

namespace DatabaseProvides

theorem getUsername_inj (u : String) (i j : Nat)
    (h : getUsername u i = getUsername u j) : i = j := by
  have hdata := congrArg String.data h
  simp only [getUsername, String.data_append, List.append_assoc] at hdata
  have hdec : (natToDec i).data = (natToDec j).data := by
    have h2 := List.append_cancel_left hdata
    exact List.append_cancel_left h2
  exact natToDec_injective (by
    have hmk : natToDec i = String.mk (natToDec i).data := rfl
    rw [hmk, hdec])

/-- A complete grant carries the derived username
`f"{upstream_username}-{relation_id}"`. -/
def grantUsernameDerived (shellUsername : String) (r : RemoteRelation) : Prop :=
  hasCreatedUser r = true → bagGet r.myApp "username" = some (getUsername shellUsername r.id)

theorem create_username_field (shell : Shell) (rw ro : String) (r : RemoteRelation)
    (database : String) :
    bagGet (create_database_and_user shell rw ro r database).1.myApp "username"
      = some (getUsername shell.username r.id) := by
  simp [create_database_and_user, bagGet_bagSet]

theorem reconcileOne_username (shell : Shell) (rw ro : String) (r : RemoteRelation)
    (h : grantUsernameDerived shell.username r) :
    grantUsernameDerived shell.username
      ((reconcileDelete shell (reconcileCreate shell rw ro r).1).1) := by
  cases hreq : relationThatRequestedUser r with
  | ok database =>
    have hr : isRequestedUser r = true := isRequestedUser_eq_true r database hreq
    cases hcr : hasCreatedUser r with
    | true =>
      have hstep : (reconcileCreate shell rw ro r).1 = r := by
        simp [reconcileCreate, hreq, hcr]
      rw [hstep, reconcileDelete_of_kept shell r (by simp [hr])]
      exact h
    | false =>
      have hstep : (reconcileCreate shell rw ro r).1
          = (create_database_and_user shell rw ro r database).1 := by
        simp [reconcileCreate, hreq, hcr]
      have hi1 : isRequestedUser (create_database_and_user shell rw ro r database).1
          = isRequestedUser r := by
        simp [create_database_and_user, isRequestedUser_myApp]
      rw [hstep, reconcileDelete_of_kept shell _ (by simp [hi1, hr])]
      intro _
      exact create_username_field shell rw ro r database
  | error e =>
    have hr : isRequestedUser r = false := isRequestedUser_eq_false r e hreq
    have hstep : (reconcileCreate shell rw ro r).1 = r := by
      simp [reconcileCreate, hreq]
    rw [hstep]
    cases hcr : hasCreatedUser r with
    | true =>
      have hdel : reconcileDelete shell r
          = ((delete_user shell r).1, [(delete_user shell r).2]) := by
        simp [reconcileDelete, hcr, hr]
      rw [hdel]
      intro hcontra
      rw [show ((delete_user shell r).1, [(delete_user shell r).2]).1
            = { r with myApp := [] } from rfl, hasCreatedUser_empty] at hcontra
      cases hcontra
    | false =>
      rw [reconcileDelete_of_kept shell r (by simp [hcr])]
      exact h

theorem reconcile_users_map_id (shell : Shell) (rw ro : String)
    (rels : List RemoteRelation) :
    (reconcile_users shell rw ro rels).1.map RemoteRelation.id
      = rels.map RemoteRelation.id := by
  rw [reconcile_users_fst, List.map_map]
  apply List.map_congr_left
  intro r _
  exact (reconcileOne_spec shell rw ro r).1

/-- C4: every grant written by reconcile carries username
`f"{upstream_username}-{relation_id}"`, and (given that relation ids are
unique and pre-existing grants also follow the derivation, as every earlier
reconcile pass wrote them) the usernames of simultaneously active grants are
pairwise distinct. -/
theorem reconcile_users_username_derivation (shell : Shell) (rw ro : String)
    (rels : List RemoteRelation)
    (hids : (rels.map RemoteRelation.id).Nodup)
    (hinv : ∀ r ∈ rels, grantUsernameDerived shell.username r) :
    (∀ r ∈ (reconcile_users shell rw ro rels).1, grantUsernameDerived shell.username r)
    ∧ (reconcile_users shell rw ro rels).1.Pairwise (fun a b =>
        hasCreatedUser a = true → hasCreatedUser b = true →
          bagGet a.myApp "username" ≠ bagGet b.myApp "username") := by
  have hout : ∀ r ∈ (reconcile_users shell rw ro rels).1,
      grantUsernameDerived shell.username r := by
    rw [reconcile_users_fst]
    intro r hr
    rw [List.mem_map] at hr
    obtain ⟨r0, hr0mem, hr0⟩ := hr
    subst hr0
    exact reconcileOne_username shell rw ro r0 (hinv r0 hr0mem)
  refine ⟨hout, ?_⟩
  have hnodup : ((reconcile_users shell rw ro rels).1.map RemoteRelation.id).Nodup := by
    rw [reconcile_users_map_id]
    exact hids
  have hpair : (reconcile_users shell rw ro rels).1.Pairwise (fun a b => a.id ≠ b.id) :=
    (List.pairwise_map).mp hnodup
  refine hpair.imp_of_mem ?_
  intro a b hamem hbmem hid hca hcb heq
  rw [hout a hamem hca, hout b hbmem hcb] at heq
  exact hid (getUsername_inj shell.username a.id b.id (Option.some_injective _ heq))

/-- Sample shell used to instantiate theorems with hypotheses. -/
def sampleShell : Shell := ⟨"admin", fun _ _ => "secret"⟩

/-- Sample downstream relation with a well-formed request and no grant. -/
def sampleRequestedRelation : RemoteRelation :=
  ⟨7, "app1", false, [("database", "db1")], []⟩

theorem reconcile_users_username_derivation_witness :
    (∀ r ∈ (reconcile_users sampleShell "rw:1" "ro:1" [sampleRequestedRelation]).1,
      grantUsernameDerived sampleShell.username r)
    ∧ (reconcile_users sampleShell "rw:1" "ro:1" [sampleRequestedRelation]).1.Pairwise
        (fun a b => hasCreatedUser a = true → hasCreatedUser b = true →
          bagGet a.myApp "username" ≠ bagGet b.myApp "username") :=
  reconcile_users_username_derivation sampleShell "rw:1" "ro:1" [sampleRequestedRelation]
    (by decide)
    (by
      intro r hr
      rw [List.mem_singleton] at hr
      subst hr
      intro hcontra
      simp [hasCreatedUser, createdUserKeys, bagHas, bagGet, sampleRequestedRelation] at hcontra)

end DatabaseProvides

namespace DatabaseProvides

/-- The two primitive operations performed, in order, by
`_RelationWithCreatedUser.delete_user`: `self.delete_databag()` then
`shell.delete_user(...)`. -/
inductive DeleteStep where
  | clearDatabag : DeleteStep
  | shellDeleteUser (username : String) : DeleteStep
  deriving DecidableEq, Repr

/-- The body of `delete_user` as its ordered list of primitive operations. -/
def deleteUserSteps (shell : Shell) (r : RemoteRelation) : List DeleteStep :=
  [.clearDatabag, .shellDeleteUser (getUsername shell.username r.id)]

/-- Effect of one primitive operation on the relation and the issued backend
calls. -/
def runDeleteStep : RemoteRelation × List ShellCall → DeleteStep → RemoteRelation × List ShellCall
  | (r, calls), .clearDatabag => (delete_databag r, calls)
  | (r, calls), .shellDeleteUser u => (r, calls ++ [ShellCall.deleteUser u])

/-- Execute a (possibly interrupted) sequence of primitive operations. -/
def runDeleteSteps (r : RemoteRelation) (steps : List DeleteStep) :
    RemoteRelation × List ShellCall :=
  steps.foldl runDeleteStep (r, [])

/-- C5: grant deletion clears the relation's local databag first and deletes
the remote backend user second: a run interrupted after at least the first
primitive operation leaves the local databag empty, a backend call can only
have been issued once both operations ran, and the full run has exactly the
effect of `delete_user`.  A crash between the databag-clear and the remote
user delete therefore leaves the databag empty, never a databag still
claiming a grant whose backend user is gone. -/
theorem delete_user_safe_ordering (shell : Shell) (r : RemoteRelation) (k : Nat) :
    (1 ≤ k → ((runDeleteSteps r ((deleteUserSteps shell r).take k)).1).myApp = [])
    ∧ ((runDeleteSteps r ((deleteUserSteps shell r).take k)).2 ≠ [] → 2 ≤ k)
    ∧ runDeleteSteps r (deleteUserSteps shell r)
        = ((delete_user shell r).1, [(delete_user shell r).2]) := by
  refine ⟨?_, ?_, rfl⟩
  · intro hk
    match k, hk with
    | 1, _ => rfl
    | (n + 2), _ =>
      simp [deleteUserSteps, runDeleteSteps, runDeleteStep, delete_databag,
        List.take_succ_cons, List.take_nil]
  · intro hcalls
    match k with
    | 0 => exact absurd rfl hcalls
    | 1 => exact absurd rfl hcalls
    | (n + 2) => omega

/-- Sample downstream relation holding a complete grant. -/
def sampleGrantedRelation : RemoteRelation :=
  ⟨9, "app2", false, [("database", "db2")],
    [("database", "db2"), ("username", "admin-9"), ("password", "secret"),
      ("endpoints", "rw:1"), ("read-only-endpoints", "ro:1")]⟩

theorem delete_user_safe_ordering_witness :
    ((runDeleteSteps sampleGrantedRelation
        ((deleteUserSteps sampleShell sampleGrantedRelation).take 1)).1).myApp = [] :=
  (delete_user_safe_ordering sampleShell sampleGrantedRelation 1).1 (by decide)

/-- C6: when the upstream relationship is tearing down,
`delete_all_databags` clears the local databag of every downstream
relationship that holds a complete grant, leaves every other relationship
untouched, and issues zero backend calls (remote backend users are left to
the MySQL charm). -/
theorem delete_all_databags_spec (rels : List RemoteRelation) :
    (delete_all_databags rels).2 = []
    ∧ List.Forall₂ (fun r r' =>
        r'.id = r.id ∧ r'.breaking = r.breaking ∧ r'.remoteApp = r.remoteApp ∧
        r'.remoteAppName = r.remoteAppName ∧
        (hasCreatedUser r = true → r'.myApp = []) ∧
        (hasCreatedUser r = false → r' = r))
      rels (delete_all_databags rels).1 := by
  refine ⟨rfl, ?_⟩
  induction rels with
  | nil => exact List.Forall₂.nil
  | cons a l ih =>
    refine List.Forall₂.cons ?_ ih
    cases hca : hasCreatedUser a with
    | true =>
      simp [delete_all_databags, hca, delete_databag]
    | false =>
      simp [delete_all_databags, hca]

theorem delete_all_databags_spec_witness :
    (delete_all_databags [sampleGrantedRelation, sampleRequestedRelation]).2 = []
    ∧ List.Forall₂ (fun r r' =>
        r'.id = r.id ∧ r'.breaking = r.breaking ∧ r'.remoteApp = r.remoteApp ∧
        r'.remoteAppName = r.remoteAppName ∧
        (hasCreatedUser r = true → r'.myApp = []) ∧
        (hasCreatedUser r = false → r' = r))
      [sampleGrantedRelation, sampleRequestedRelation]
      (delete_all_databags [sampleGrantedRelation, sampleRequestedRelation]).1 :=
  delete_all_databags_spec [sampleGrantedRelation, sampleRequestedRelation]

end DatabaseProvides

namespace DatabaseProvides

/-- None of the five grant keys is present in the local databag. -/
def grantFieldsAbsent (r : RemoteRelation) : Bool :=
  createdUserKeys.all (fun k => !(bagHas r.myApp k))

/-- The local databag holds either none of the grant fields or all five. -/
def grantCompleteOrAbsent (r : RemoteRelation) : Bool :=
  grantFieldsAbsent r || hasCreatedUser r

theorem grantFieldsAbsent_empty (r : RemoteRelation) :
    grantFieldsAbsent { r with myApp := [] } = true := by
  simp [grantFieldsAbsent, createdUserKeys, bagHas, bagGet]

theorem reconcileOne_completeOrAbsent (shell : Shell) (rw ro : String) (r : RemoteRelation)
    (h : grantCompleteOrAbsent r = true) :
    grantCompleteOrAbsent ((reconcileDelete shell (reconcileCreate shell rw ro r).1).1)
      = true := by
  cases hreq : relationThatRequestedUser r with
  | ok database =>
    have hr : isRequestedUser r = true := isRequestedUser_eq_true r database hreq
    cases hcr : hasCreatedUser r with
    | true =>
      have hstep : (reconcileCreate shell rw ro r).1 = r := by
        simp [reconcileCreate, hreq, hcr]
      rw [hstep, reconcileDelete_of_kept shell r (by simp [hr])]
      exact h
    | false =>
      have hstep : (reconcileCreate shell rw ro r).1
          = (create_database_and_user shell rw ro r database).1 := by
        simp [reconcileCreate, hreq, hcr]
      have hi1 : isRequestedUser (create_database_and_user shell rw ro r database).1
          = isRequestedUser r := by
        simp [create_database_and_user, isRequestedUser_myApp]
      rw [hstep, reconcileDelete_of_kept shell _ (by simp [hi1, hr])]
      simp [grantCompleteOrAbsent, hasCreatedUser_create]
  | error e =>
    have hr : isRequestedUser r = false := isRequestedUser_eq_false r e hreq
    have hstep : (reconcileCreate shell rw ro r).1 = r := by
      simp [reconcileCreate, hreq]
    rw [hstep]
    cases hcr : hasCreatedUser r with
    | true =>
      have hdel : reconcileDelete shell r
          = ((delete_user shell r).1, [(delete_user shell r).2]) := by
        simp [reconcileDelete, hcr, hr]
      rw [hdel]
      show grantCompleteOrAbsent { r with myApp := [] } = true
      simp [grantCompleteOrAbsent, grantFieldsAbsent_empty]
    | false =>
      rw [reconcileDelete_of_kept shell r (by simp [hcr])]
      exact h

/-- C9: the local databag of a downstream relationship never holds a proper
non-empty subset of the five grant fields at the operation boundaries
observable in the single-threaded event model: if every databag is
complete-or-absent beforehand, it remains so after `reconcile_users` and
after `delete_all_databags`, and grant creation itself commits all five
fields in one operation. -/
theorem grant_complete_or_absent_preserved (shell : Shell) (rw ro : String)
    (rels : List RemoteRelation)
    (h : ∀ r ∈ rels, grantCompleteOrAbsent r = true) :
    (∀ r ∈ (reconcile_users shell rw ro rels).1, grantCompleteOrAbsent r = true)
    ∧ (∀ r ∈ (delete_all_databags rels).1, grantCompleteOrAbsent r = true)
    ∧ (∀ r : RemoteRelation, ∀ database : String,
        hasCreatedUser (create_database_and_user shell rw ro r database).1 = true) := by
  refine ⟨?_, ?_, fun r database => hasCreatedUser_create shell rw ro r database⟩
  · rw [reconcile_users_fst]
    intro r hr
    rw [List.mem_map] at hr
    obtain ⟨r0, hr0mem, hr0⟩ := hr
    subst hr0
    exact reconcileOne_completeOrAbsent shell rw ro r0 (h r0 hr0mem)
  · intro r hr
    simp only [delete_all_databags, List.mem_map] at hr
    obtain ⟨r0, hr0mem, hr0⟩ := hr
    subst hr0
    cases hca : hasCreatedUser r0 with
    | true =>
      simp [hca, grantCompleteOrAbsent, delete_databag]
      simp [grantFieldsAbsent, createdUserKeys, bagHas, bagGet]
    | false =>
      simpa [hca] using h r0 hr0mem

theorem grant_complete_or_absent_preserved_witness :
    (∀ r ∈ (reconcile_users sampleShell "rw:1" "ro:1"
        [sampleGrantedRelation, sampleRequestedRelation]).1,
      grantCompleteOrAbsent r = true)
    ∧ (∀ r ∈ (delete_all_databags [sampleGrantedRelation, sampleRequestedRelation]).1,
        grantCompleteOrAbsent r = true)
    ∧ (∀ r : RemoteRelation, ∀ database : String,
        hasCreatedUser (create_database_and_user sampleShell "rw:1" "ro:1" r database).1
          = true) :=
  grant_complete_or_absent_preserved sampleShell "rw:1" "ro:1"
    [sampleGrantedRelation, sampleRequestedRelation] (by decide)

/-- Sample downstream relation whose remote application set
`extra-user-roles` alongside a database request. -/
def c3Relation : RemoteRelation :=
  ⟨0, "app1", false, [("database", "db1"), ("extra-user-roles", "admin")], []⟩

/-- C3, failing part: with one downstream relation that requests an
unsupported extra user role, `get_status` returns `exception.args[0]` of the
`_UnsupportedExtraUserRole` exception, which is the raw message string — not
the Blocked status object that the function's return annotation
(`Optional[charm.Status]`), the spec and the repository's unit tests call
for. -/
theorem get_status_unsupported_role_returns_raw_string :
    get_status [c3Relation]
      = some (.rawString
          "app1 app requested unsupported extra user role on database endpoint")
    ∧ get_status []
      = some (.status (.blocked "Missing relation: database"))
    ∧ get_status [⟨0, "app1", false, [], []⟩]
      = some (.status (.waiting "Waiting for app1 app on database endpoint")) := by
  refine ⟨?_, ?_, ?_⟩ <;> rfl

end DatabaseProvides

namespace DatabaseRequires

theorem leaderRequestWrite_database (b : Bag) :
    bagGet (leaderRequestWrite b) "database" = some "mysql_innodb_cluster_metadata" := by
  simp [leaderRequestWrite, bagGet_bagSet]

theorem leaderRequestWrite_role (b : Bag) :
    bagGet (leaderRequestWrite b) "extra-user-roles" = some "mysqlrouter" := by
  simp [leaderRequestWrite, bagGet_bagSet]

theorem leaderRequestWrite_idem (b : Bag) :
    leaderRequestWrite (leaderRequestWrite b) = leaderRequestWrite b := by
  calc leaderRequestWrite (leaderRequestWrite b)
      = bagSet (bagSet (leaderRequestWrite b) "database" "mysql_innodb_cluster_metadata")
          "extra-user-roles" "mysqlrouter" := rfl
    _ = bagSet (leaderRequestWrite b) "extra-user-roles" "mysqlrouter" := by
        rw [bagSet_eq_of_bagGet _ _ _ (leaderRequestWrite_database b)]
    _ = leaderRequestWrite b := bagSet_eq_of_bagGet _ _ _ (leaderRequestWrite_role b)

/-- C8 (amended): the write of this unit's database-name request and role
marker into its own local databag happens exactly when a backing-cluster
relationship exists (and the more-than-one assertion does not fire) and the
caller is the leader — it happens before the tearing-down and
remote-key-completeness checks, hence also when resolution subsequently
fails; with zero relationships, with more than one relationship, or as
non-leader, the local databag is left unchanged; and the write is idempotent
(same values every call). -/
theorem upstream_request_write_behavior (isLeader : Bool) (rel r1 r2 : RemoteRelation)
    (rest : List RemoteRelation) :
    ((requiresModule true [rel]).2 = [{ rel with myApp := leaderRequestWrite rel.myApp }])
    ∧ ((requiresModule false [rel]).2 = [rel])
    ∧ ((requiresModule isLeader []).2 = [])
    ∧ ((requiresModule isLeader (r1 :: r2 :: rest)).2 = r1 :: r2 :: rest)
    ∧ leaderRequestWrite (leaderRequestWrite rel.myApp) = leaderRequestWrite rel.myApp
    ∧ bagGet (leaderRequestWrite rel.myApp) "database" = some "mysql_innodb_cluster_metadata"
    ∧ bagGet (leaderRequestWrite rel.myApp) "extra-user-roles" = some "mysqlrouter" :=
  ⟨rfl, rfl, rfl, rfl, leaderRequestWrite_idem rel.myApp,
    leaderRequestWrite_database rel.myApp, leaderRequestWrite_role rel.myApp⟩

/-- Sample backing-cluster relation marked breaking, with an empty local
databag. -/
def c8Relation : RemoteRelation := ⟨3, "mysql", true, [], []⟩

/-- C8, counterexample to the claim as stated: with a single tearing-down
backing-cluster relationship and a leader caller, resolution fails with
`_RelationBreaking`, yet the local databag has been written (it was empty and
now carries the database-name request and role marker) — the write is not
conditioned on successful resolution. -/
theorem upstream_request_write_on_failure_counterexample :
    (requiresModule true [c8Relation]).1
      = .ok { connection_info := none, relation_breaking := true,
              status := some (.blocked "Missing relation: backend-database") }
    ∧ (requiresModule true [c8Relation]).2
      = [{ c8Relation with myApp :=
            [("database", "mysql_innodb_cluster_metadata"),
              ("extra-user-roles", "mysqlrouter")] }] :=
  ⟨rfl, rfl⟩

/-- C7 (amended): with exactly one backing-cluster relationship marked
tearing-down, resolution fails with `_RelationBreaking` — a failure kind
distinct from `_MissingRelation` in that it alone sets `relation_breaking`
(which the reconciliation entry point uses to decide to wipe local databags)
— but it is reported with the same
`BlockedStatus("Missing relation: backend-database")` as absence of the
relationship (inherited from `_MissingRelation.__init__`), not as a Waiting
status. -/
theorem upstream_breaking_distinct_kind_blocked_status (isLeader : Bool)
    (rel : RemoteRelation) (h : rel.breaking = true) :
    (requiresModule isLeader [rel]).1
      = .ok { connection_info := none, relation_breaking := true,
              status := some (.blocked ("Missing relation: " ++ endpointName)) }
    ∧ (requiresModule isLeader []).1
      = .ok { connection_info := none, relation_breaking := false,
              status := some (.blocked ("Missing relation: " ++ endpointName)) } := by
  constructor
  · cases isLeader <;> simp [requiresModule, connectionInformationInit, h]
  · cases isLeader <;> rfl

/-- Sample backing-cluster relation marked breaking whose remote databag is
complete. -/
def c7Relation : RemoteRelation :=
  ⟨1, "mysql", true, [("endpoints", "host:3306"), ("username", "u"), ("password", "p")], []⟩

/-- C7, counterexample to the claim as stated: a single tearing-down
backing-cluster relationship (even with a complete remote databag) is
reported with the Blocked missing-relation status, not a Waiting status,
although the failure kind is recorded as breaking (`relation_breaking`). -/
theorem upstream_breaking_not_waiting_counterexample :
    reportedStatus (requiresModule false [c7Relation]).1
      = some (.blocked "Missing relation: backend-database")
    ∧ isWaitingStatus (reportedStatus (requiresModule false [c7Relation]).1) = false
    ∧ (requiresModule false [c7Relation]).1
      = .ok { connection_info := none, relation_breaking := true,
              status := some (.blocked "Missing relation: backend-database") } :=
  ⟨rfl, rfl, rfl⟩

/-- Sample backing-cluster relation marked breaking, with remote keys only
part-populated. -/
def c7WitnessRelation : RemoteRelation := ⟨2, "mysql", true, [("endpoints", "h:3306")], []⟩

theorem upstream_breaking_distinct_kind_blocked_status_witness :
    (requiresModule true [c7WitnessRelation]).1
      = .ok { connection_info := none, relation_breaking := true,
              status := some (.blocked ("Missing relation: " ++ endpointName)) }
    ∧ (requiresModule true []).1
      = .ok { connection_info := none, relation_breaking := false,
              status := some (.blocked ("Missing relation: " ++ endpointName)) } :=
  upstream_breaking_distinct_kind_blocked_status true c7WitnessRelation rfl

theorem connectionInformationInit_single_not_breaking (isLeader : Bool)
    (rel : RemoteRelation) (hbr : rel.breaking = false) :
    (connectionInformationInit isLeader [rel]).1
      = connectionInfoFromRemote rel.remoteAppName rel.remoteApp := by
  cases isLeader <;> simp [connectionInformationInit, hbr]

/-- C10: for an existing, non-tearing-down backing-cluster relationship, the
`_IncompleteDatabag`/Waiting outcome occurs exactly when one of the
remote-databag keys `endpoints`, `username`, `password` is absent; an
`endpoints` value that is present but malformed does not yield Waiting:
splitting on `,` into more than (or fewer than) one piece aborts with an
uncaught assertion failure, and a single piece without a `:` separator aborts
with an uncaught index failure. -/
theorem upstream_waiting_characterization (isLeader : Bool) (rel : RemoteRelation)
    (hbr : rel.breaking = false) :
    (bagGet rel.remoteApp "endpoints" = none →
      (connectionInformationInit isLeader [rel]).1
        = .incompleteDatabag (.waiting (waitingMessage rel.remoteAppName)))
    ∧ (∀ ev : String, bagGet rel.remoteApp "endpoints" = some ev →
        (pySplit ev ',').length ≠ 1 →
        (connectionInformationInit isLeader [rel]).1 = .assertionError)
    ∧ (∀ ev e : String, bagGet rel.remoteApp "endpoints" = some ev →
        pySplit ev ',' = [e] → (pySplit e ':').length < 2 →
        (connectionInformationInit isLeader [rel]).1 = .indexError)
    ∧ (∀ ev e : String, bagGet rel.remoteApp "endpoints" = some ev →
        pySplit ev ',' = [e] → 2 ≤ (pySplit e ':').length →
        ((∃ m : String, (connectionInformationInit isLeader [rel]).1
            = .incompleteDatabag (.waiting m))
          ↔ (bagGet rel.remoteApp "username" = none
              ∨ bagGet rel.remoteApp "password" = none))) := by
  rw [connectionInformationInit_single_not_breaking isLeader rel hbr] at *
  refine ⟨?_, ?_, ?_, ?_⟩
  · intro hev
    simp only [connectionInfoFromRemote, hev]
  · intro ev hev hlen
    simp only [connectionInfoFromRemote, hev, parseEndpointsValue]
    rcases hsplit : pySplit ev ',' with _ | ⟨x, _ | ⟨y, zs⟩⟩
    · rfl
    · exact absurd (by simp [hsplit]) hlen
    · rfl
  · intro ev e hev hsplit hlt
    simp only [connectionInfoFromRemote, hev, parseEndpointsValue, hsplit, parseEndpoint]
    rcases hsplit2 : pySplit e ':' with _ | ⟨x, _ | ⟨y, zs⟩⟩
    · rfl
    · rfl
    · rw [hsplit2] at hlt
      simp only [List.length_cons] at hlt
      omega
  · intro ev e hev hsplit hge
    simp only [connectionInfoFromRemote, hev, parseEndpointsValue, hsplit, parseEndpoint]
    rcases hsplit2 : pySplit e ':' with _ | ⟨x, _ | ⟨y, zs⟩⟩
    · rw [hsplit2] at hge
      simp at hge
    · rw [hsplit2] at hge
      simp at hge
    · simp only [parseUserPass]
      cases hu : bagGet rel.remoteApp "username" with
      | none => simp
      | some u =>
        cases hp : bagGet rel.remoteApp "password" with
        | none => simp
        | some p => simp

/-- Sample backing-cluster relation whose `endpoints` value lacks a `:`
separator. -/
def c10Relation : RemoteRelation := ⟨4, "mysql", false, [("endpoints", "hostonly")], []⟩

theorem upstream_waiting_characterization_witness :
    (connectionInformationInit false [c10Relation]).1 = UpstreamOutcome.indexError :=
  ((upstream_waiting_characterization false c10Relation rfl).2.2.1 "hostonly" "hostonly"
    (by decide) (by decide) (by decide))

end DatabaseRequires
